import Mathlib

/-!
Verification of the Chimera actor runtime against its specification.

The development shallowly embeds the Python sources:
  - `src/actors/user_session_actor.py` (UserSession model, UserSessionActor
    handlers, pending-request table, cleanup sweep),
  - `src/config/settings.py` (the configuration constants the claims cite),
and, where the deciding implementation file is not part of the source tree
(memory actor, actor system, event store), models the behavior from the
specification and the repository's own tests, marked `Modelled from the spec:`.

Conventions: Python `datetime` values are modelled as rational timestamps in
seconds (only differences and comparisons are used by the embedded code);
Python `float` is modelled as `ℚ`; Python dicts keyed by strings are modelled
as association lists in insertion order with unique keys; fallible Python code
(raising exceptions) is modelled with `Except`.
-/

namespace Chimera

/-! ## Configuration constants (src/config/settings.py) -/

/-- settings.py line 147: max size of the mode history. -/
def MODE_HISTORY_SIZE : Nat := 5

/-- settings.py line 170: minimal confidence value. -/
def PYDANTIC_CONFIDENCE_MIN : ℚ := 0

/-- settings.py line 171: maximal confidence value. -/
def PYDANTIC_CONFIDENCE_MAX : ℚ := 1

/-- settings.py line 179: max size of mode history accepted by the
`UserSession` field validator. -/
def PYDANTIC_MODE_HISTORY_MAX_SIZE : Nat := 10

/-- settings.py line 180: max size of cache metrics in `UserSession`. -/
def PYDANTIC_CACHE_METRICS_MAX_SIZE : Nat := 100

/-- settings.py line 191: number of messages kept per user in the STM buffer. -/
def STM_BUFFER_SIZE : Nat := 50

/-- settings.py line 197: number of historical messages for generation. -/
def STM_CONTEXT_SIZE_FOR_GENERATION : Nat := 20

/-- settings.py line 210: timeout for pending context requests, in seconds. -/
def STM_CONTEXT_REQUEST_TIMEOUT : ℚ := 30

/-! ## UserSession (src/actors/user_session_actor.py lines 15-72)

The pydantic model `UserSession` with `validate_assignment=True`.
Timestamps are rationals; `created_at` keeps the same representation when
copied into `session_data` (the source serializes it with `isoformat`). -/

structure UserSession where
  user_id : String
  username : Option String := none
  message_count : Nat := 0
  created_at : ℚ := 0
  last_activity : ℚ := 0
  cache_metrics : List ℚ := []
  current_mode : String := "talk"
  mode_confidence : ℚ := 0
  mode_history : List String := []
  last_mode_change : Option ℚ := none
  deriving Repr, DecidableEq

/-- The closed list of valid modes (user_session_actor.py line 51). -/
def valid_modes : List String := ["talk", "expert", "creative", "base"]

/-- Field validator for `mode_confidence` (lines 40-46): the value must lie
within `[PYDANTIC_CONFIDENCE_MIN, PYDANTIC_CONFIDENCE_MAX]`, otherwise a
`ValueError` is raised. -/
def validate_confidence (v : ℚ) : Except String ℚ :=
  if PYDANTIC_CONFIDENCE_MIN ≤ v ∧ v ≤ PYDANTIC_CONFIDENCE_MAX then .ok v
  else .error "Mode confidence must be between 0.0 and 1.0"

/-- Field validator for `current_mode` (lines 48-54): the value must be one of
`valid_modes`, otherwise a `ValueError` is raised. -/
def validate_mode (v : String) : Except String String :=
  if v ∈ valid_modes then .ok v
  else .error "Invalid mode: must be one of talk, expert, creative, base"

/-- Field validator for `mode_history` (lines 56-63): a list longer than
`PYDANTIC_MODE_HISTORY_MAX_SIZE` is trimmed to its last
`PYDANTIC_MODE_HISTORY_MAX_SIZE` elements (Python `v[-MAX:]`). -/
def validate_mode_history_size (v : List String) : List String :=
  if PYDANTIC_MODE_HISTORY_MAX_SIZE < v.length then
    v.drop (v.length - PYDANTIC_MODE_HISTORY_MAX_SIZE)
  else v

/-- Field validator for `cache_metrics` (lines 65-72): a list longer than
`PYDANTIC_CACHE_METRICS_MAX_SIZE` is trimmed to its last
`PYDANTIC_CACHE_METRICS_MAX_SIZE` elements. -/
def validate_cache_metrics_size (v : List ℚ) : List ℚ :=
  if PYDANTIC_CACHE_METRICS_MAX_SIZE < v.length then
    v.drop (v.length - PYDANTIC_CACHE_METRICS_MAX_SIZE)
  else v

/-- Pydantic validation of a full `UserSession` value: every field validator
runs at construction. -/
def UserSession.validate (s : UserSession) : Except String UserSession := do
  let conf ← validate_confidence s.mode_confidence
  let mode ← validate_mode s.current_mode
  let hist := validate_mode_history_size s.mode_history
  let metrics := validate_cache_metrics_size s.cache_metrics
  return { s with mode_confidence := conf, current_mode := mode,
                  mode_history := hist, cache_metrics := metrics }

/-- Constructing a `UserSession` (pydantic `UserSession(...)`): runs all the
field validators; a validation failure raises instead of producing a value. -/
def mkUserSession (s : UserSession) : Except String UserSession :=
  s.validate

/-- Assignment `session.current_mode = v` under `validate_assignment=True`
(ConfigDict at lines 17-20): the field validator runs on the assigned value;
on failure the assignment raises and the session is unchanged. -/
def UserSession.set_current_mode (s : UserSession) (v : String) :
    Except String UserSession :=
  (validate_mode v).map fun m => { s with current_mode := m }

/-- Assignment `session.mode_confidence = v` under `validate_assignment=True`. -/
def UserSession.set_mode_confidence (s : UserSession) (v : ℚ) :
    Except String UserSession :=
  (validate_confidence v).map fun c => { s with mode_confidence := c }

/-! ## Message payloads (src/actors/user_session_actor.py)

Concrete payload shapes used by the UserSessionActor. Context messages
returned by the memory actor are treated opaquely by the session actor
(`message.payload.get('messages', [])`), so they are modelled as an opaque
wrapper around their serialized form. -/

/-- An opaque historical-context message, as relayed by the session actor. -/
structure CtxMessage where
  raw : String
  deriving Repr, DecidableEq

/-- The `session_data` mapping stored in a pending request (lines 277-280). -/
structure SessionData where
  username : Option String
  created_at : ℚ
  deriving Repr, DecidableEq

/-- Payload of a `USER_MESSAGE` (fields read at lines 182-185). -/
structure UserMessagePayload where
  user_id : String
  username : Option String
  text : String
  chat_id : Int
  deriving Repr, DecidableEq

/-- Payload of the `STORE_MEMORY` message built at lines 192-204. -/
structure StoreMemoryPayload where
  user_id : String
  message_type : String
  content : String
  deriving Repr, DecidableEq

/-- Payload of the `GET_CONTEXT` request built at lines 287-297, together with
its envelope `reply_to` field. -/
structure GetContextPayload where
  user_id : String
  request_id : String
  limit : Nat
  format_type : String
  reply_to : String
  deriving Repr, DecidableEq

/-- Payload of a `GENERATE_RESPONSE` message (lines 153-167 and 615-629). -/
structure GenerateResponsePayload where
  user_id : String
  chat_id : Int
  text : String
  include_prompt : Bool
  message_count : Nat
  session_data : SessionData
  mode : String
  mode_confidence : ℚ
  historical_context : List CtxMessage
  deriving Repr, DecidableEq

/-! ## Pending-request table (lines 86, 269-284)

`self._pending_requests: Dict[str, Dict[str, Any]]` maps a correlation id to
the captured generation context plus a creation timestamp. The dict is
modelled as an association list in insertion order; its keys (uuid4 strings)
are unique and non-empty. -/

/-- One entry of `_pending_requests` (the dict literal at lines 271-284). -/
structure PendingRequest where
  user_id : String
  chat_id : Int
  text : String
  include_prompt : Bool
  message_count : Nat
  session_data : SessionData
  mode : String
  mode_confidence : ℚ
  timestamp : ℚ
  deriving Repr, DecidableEq

/-- The pending-request table. -/
abbrev PendingTable := List (String × PendingRequest)

/-- The keys of a pending table are pairwise distinct (dict key uniqueness). -/
def keysNodup (t : PendingTable) : Prop := (t.map Prod.fst).Nodup

instance (t : PendingTable) : Decidable (keysNodup t) := by
  unfold keysNodup; infer_instance

/-! ## Updating the mode history (lines 220-224)

`session.mode_history.append(new_mode)` followed by
`if len(session.mode_history) > MODE_HISTORY_SIZE: session.mode_history.pop(0)`.
`pop(0)` removes the first (oldest) element. -/

/-- One mode-history update step of `_handle_user_message`. -/
def updateModeHistory (h : List String) (m : String) : List String :=
  let h2 := h ++ [m]
  if MODE_HISTORY_SIZE < h2.length then h2.tail else h2

/-! ## `_handle_user_message` (lines 180-303)

The handler's effects: store the user message to memory, update the session
(mode, confidence, history, counters), register one pending request under a
fresh uuid4 correlation id, send a `GET_CONTEXT` request with `reply_to` set
to the actor itself, and return `None` (no direct reply; the code comment at
line 302 reads "do not return a message - wait for CONTEXT_RESPONSE").

Inputs that the source computes from code that lives outside `src/` are taken
as parameters: `detected` is the result of `_determine_generation_mode`
(lines 391-585; it depends on `config/prompts.py`, not in the source tree),
`include_prompt` the result of `_should_include_prompt` (lines 329-356,
driven by `PROMPT_CONFIG` from the same missing module), `rid` the fresh
`str(uuid.uuid4())` of line 270, and `now` the current time. -/

/-- Result of `_handle_user_message`: updated session, updated pending table,
the `STORE_MEMORY` message sent to the memory actor, the `GET_CONTEXT`
message sent to the memory actor, and the handler's direct return value. -/
structure UserMessageResult where
  session : UserSession
  pending : PendingTable
  store_msg : StoreMemoryPayload
  get_context_msg : GetContextPayload
  reply : Option GenerateResponsePayload
  deriving Repr, DecidableEq

def handle_user_message (p : UserMessagePayload) (s : UserSession)
    (detected : String × ℚ) (include_prompt : Bool) (rid : String) (now : ℚ)
    (table : PendingTable) : UserMessageResult :=
  -- lines 192-205: store the user's message into memory
  let store_msg : StoreMemoryPayload :=
    { user_id := p.user_id, message_type := "user", content := p.text }
  let new_mode := detected.1
  let confidence := detected.2
  -- lines 211-215: mode change check and assignment
  let s1 := if new_mode ≠ s.current_mode then
      { s with last_mode_change := some now, current_mode := new_mode }
    else s
  -- line 218: always update the confidence
  let s2 := { s1 with mode_confidence := confidence }
  -- lines 220-224: bounded mode history
  let s3 := { s2 with mode_history := updateModeHistory s2.mode_history new_mode }
  -- lines 249-250: counters
  let s4 := { s3 with message_count := s3.message_count + 1, last_activity := now }
  -- lines 270-284: register the pending request under the fresh uuid
  let entry : PendingRequest :=
    { user_id := p.user_id, chat_id := p.chat_id, text := p.text,
      include_prompt := include_prompt, message_count := s4.message_count,
      session_data := { username := s4.username, created_at := s4.created_at },
      mode := s4.current_mode, mode_confidence := s4.mode_confidence,
      timestamp := now }
  let table2 := table ++ [(rid, entry)]
  -- lines 287-297: request historical context, reply routed back to self
  let get_context_msg : GetContextPayload :=
    { user_id := p.user_id, request_id := rid,
      limit := STM_CONTEXT_SIZE_FOR_GENERATION,
      format_type := "structured", reply_to := "user_session" }
  -- line 303: `return None`
  { session := s4, pending := table2, store_msg := store_msg,
    get_context_msg := get_context_msg, reply := none }

/-! ## `CONTEXT_RESPONSE` handling (handle_message, lines 143-178) -/

/-- The `GENERATE_RESPONSE` payload built from a resolved pending request and
the reply's messages (lines 153-167). -/
def context_response_msg (pending : PendingRequest)
    (messages : List CtxMessage) : GenerateResponsePayload :=
  { user_id := pending.user_id, chat_id := pending.chat_id,
    text := pending.text, include_prompt := pending.include_prompt,
    message_count := pending.message_count,
    session_data := pending.session_data, mode := pending.mode,
    mode_confidence := pending.mode_confidence,
    historical_context := messages }

/-- The `CONTEXT_RESPONSE` branch of `handle_message`: the payload's
`request_id` is looked up; a missing (`None`), empty (falsy), or unknown id
logs a warning and returns `None` without touching the table; otherwise the
entry is popped and one `GENERATE_RESPONSE` is sent to the generation actor.
The second component of the result is that emitted message. -/
def handle_context_response (table : PendingTable)
    (request_id : Option String) (messages : List CtxMessage) :
    PendingTable × Option GenerateResponsePayload :=
  match request_id with
  | none => (table, none)
  | some rid =>
    -- `if not request_id`: the empty string is falsy in Python
    if rid = "" then (table, none)
    else
      match table.find? (fun q => q.1 == rid) with
      | none => (table, none)
      | some pr =>
        (table.eraseP (fun q => q.1 == rid),
         some (context_response_msg pr.2 messages))

/-! ## `_cleanup_expired_requests` (lines 598-632)

The sweep collects every request id whose age exceeds
`STM_CONTEXT_REQUEST_TIMEOUT`, then pops each collected id
(`self._pending_requests.pop(request_id)`) and sends one degraded
`GENERATE_RESPONSE` (empty `historical_context`) built from the popped
entry. Since a dict's keys are unique, popping an id collected from the same
dict always retrieves exactly the entry it was collected from, so the fold
below erases each expired pair and the emitted messages are the expired
entries' fallbacks in table order. -/

/-- Line 604: a pending request is expired when its age strictly exceeds the
timeout. -/
def isExpiredRequest (now : ℚ) (pr : PendingRequest) : Bool :=
  decide (STM_CONTEXT_REQUEST_TIMEOUT < now - pr.timestamp)

/-- The degraded fallback `GENERATE_RESPONSE` (lines 615-629): the saved
context with an empty `historical_context`. -/
def timeout_fallback_msg (pending : PendingRequest) : GenerateResponsePayload :=
  { user_id := pending.user_id, chat_id := pending.chat_id,
    text := pending.text, include_prompt := pending.include_prompt,
    message_count := pending.message_count,
    session_data := pending.session_data, mode := pending.mode,
    mode_confidence := pending.mode_confidence,
    historical_context := [] }

/-- The cleanup sweep: returns the table after all pops together with the
list of emitted degraded `GENERATE_RESPONSE` messages. -/
def cleanup_expired_requests (now : ℚ) (table : PendingTable) :
    PendingTable × List GenerateResponsePayload :=
  let expired := table.filter (fun q => isExpiredRequest now q.2)
  (expired.foldl (fun tbl q => tbl.eraseP (fun r => r.1 == q.1)) table,
   expired.map (fun q => timeout_fallback_msg q.2))

/-! ## Short-term-memory buffer (MemoryActor)

`actors/memory_actor.py` is not part of the source tree; only its tests are
(`test_memory_buffer.py`, `test_memory_integration.py`). The buffer behavior
is therefore modelled from the specification. -/

/-- A record stored in the STM buffer (`store_interaction` payload fields). -/
structure StoredMessage where
  message_type : String := "user"
  content : String := ""
  deriving Repr, DecidableEq

/-- Modelled from the spec: `memory_actor.py` is not under `src/`; the spec's
"Bounded buffer" property reads "storing `N > capacity` records for one key
retains exactly `capacity` records, the oldest `N - capacity` evicted, in
arrival order", with capacity `STM_BUFFER_SIZE`. Storing appends the record
and evicts the oldest entries beyond the capacity. -/
def store_interaction (buf : List StoredMessage) (m : StoredMessage) :
    List StoredMessage :=
  let b := buf ++ [m]
  if STM_BUFFER_SIZE < b.length then b.drop (b.length - STM_BUFFER_SIZE) else b

/-- Reading the whole buffer for one key after a sequence of stores, starting
from an empty buffer. -/
def stored_buffer (msgs : List StoredMessage) : List StoredMessage :=
  msgs.foldl store_interaction []

/-- The concrete record `Message i` used by
`test_buffer_maintains_50_messages`. -/
def numbered_message (i : Nat) : StoredMessage :=
  { message_type := if i % 2 = 0 then "user" else "bot",
    content := "Message " ++ toString i }

/-! ## MemoryActor degraded mode

Modelled from the spec: `memory_actor.py` is not under `src/`. Spec §7:
"store-level fatal errors ... trip a degraded mode: the affected actor
continues running and serving requests but skips persistence, logging every
skipped write"; the tests `test_degraded_mode_behavior` and
`test_memory_degraded_mode` pin the observable payload: `STORE_MEMORY`
raises nothing and persists nothing, `GET_CONTEXT` answers with
`degraded_mode = True` and `context = []`. -/

/-- The memory actor's persistent state: the degraded flag and the per-user
STM buffers. -/
structure MemoryState where
  degraded_mode : Bool := false
  buffers : List (String × List StoredMessage) := []
  deriving Repr, DecidableEq

/-- Look up a user's buffer (empty when the user has no entries yet). -/
def MemoryState.bufferOf (st : MemoryState) (user : String) :
    List StoredMessage :=
  match st.buffers.find? (fun q => q.1 == user) with
  | some q => q.2
  | none => []

/-- Replace (or create) a user's buffer. -/
def MemoryState.setBuffer (st : MemoryState) (user : String)
    (buf : List StoredMessage) : MemoryState :=
  if (st.buffers.find? (fun q => q.1 == user)).isSome then
    { st with buffers := st.buffers.map (fun q => if q.1 == user then (q.1, buf) else q) }
  else
    { st with buffers := st.buffers ++ [(user, buf)] }

/-- Modelled from the spec: handling `STORE_MEMORY`. In degraded mode the
write is skipped (logged) and no error is raised; otherwise the record is
appended to the user's bounded buffer. The `Except` result records whether
the handler raised. -/
def memory_handle_store (st : MemoryState) (user : String)
    (m : StoredMessage) : Except String MemoryState :=
  if st.degraded_mode then
    .ok st
  else
    .ok (st.setBuffer user (store_interaction (st.bufferOf user) m))

/-- The payload of the `CONTEXT_RESPONSE` produced for `GET_CONTEXT` in the
shape the degraded-mode tests inspect. -/
structure MemoryContextResponse where
  degraded_mode : Bool
  context : List StoredMessage
  deriving Repr, DecidableEq

/-- Modelled from the spec: handling `GET_CONTEXT`. In degraded mode the
response carries `degraded_mode = True` and an empty context instead of
failing; otherwise it carries the user's buffer. -/
def memory_handle_get_context (st : MemoryState) (user : String) :
    MemoryContextResponse :=
  if st.degraded_mode then
    { degraded_mode := true, context := [] }
  else
    { degraded_mode := false, context := st.bufferOf user }

/-! ## Message catalog and dispatch

`actors/messages.py` and `actors/actor_system.py` are not under `src/`.
Modelled from the spec ("Message Envelope ... message type (from a closed,
process-wide enumerated catalog)") and from the behavior the repository's own
test `test_memory_actor_message_handling` asserts: creating a message whose
type is the out-of-catalog string `unknown_type`, sending it through
`ActorSystem.send_message`, and having the MemoryActor process it from its
mailbox all succeed, the actor counting it in `unknown_message_count`. -/

/-- The closed catalog of message types named by the sources
(`MESSAGE_TYPES` keys used across `user_session_actor.py` and the tests). -/
def MESSAGE_CATALOG : List String :=
  ["user_message", "cache_hit_metric", "bot_response", "context_response",
   "store_memory", "get_context", "generate_response", "clear_user_memory"]

/-- A minimal message envelope: type plus sender. -/
structure EnvelopeMsg where
  sender_id : String
  message_type : String
  deriving Repr, DecidableEq

/-- Modelled from the spec and `test_memory_actor_message_handling`: dispatch
enqueues the message onto the target mailbox without validating its type
against the catalog (the test's `unknown_type` message is delivered and
counted by the target actor). -/
def send_message (mailbox : List EnvelopeMsg) (m : EnvelopeMsg) :
    List EnvelopeMsg :=
  mailbox ++ [m]

/-- The MemoryActor's per-type metrics counters asserted by
`test_memory_actor_message_handling`. -/
structure MemMetrics where
  store_memory_count : Nat := 0
  get_context_count : Nat := 0
  clear_memory_count : Nat := 0
  unknown_message_count : Nat := 0
  deriving Repr, DecidableEq

/-- Modelled from the spec and `test_memory_actor_message_handling`: the
MemoryActor's handler routes on the message type and counts any type outside
its known set as an unknown message. -/
def memory_count_message (met : MemMetrics) (message_type : String) :
    MemMetrics :=
  if message_type = "store_memory" then
    { met with store_memory_count := met.store_memory_count + 1 }
  else if message_type = "get_context" then
    { met with get_context_count := met.get_context_count + 1 }
  else if message_type = "clear_user_memory" then
    { met with clear_memory_count := met.clear_memory_count + 1 }
  else
    { met with unknown_message_count := met.unknown_message_count + 1 }

/-- Processing a mailbox: the actor's loop dequeues and counts each message. -/
def memory_process_mailbox (met : MemMetrics) (mailbox : List EnvelopeMsg) :
    MemMetrics :=
  mailbox.foldl (fun acc m => memory_count_message acc m.message_type) met

/-! ## Event store append contract

Modelled from the spec: `actors/events/event_store.py` is not under `src/`
(only the re-export in `actors/events/__init__.py` is). Spec §4.4:
"`append(streamId, event, expectedVersion)`: appends one Event Record if and
only if the stream's current version equals `expectedVersion`; on mismatch,
fails with `EventStoreConcurrencyError` carrying both the expected and actual
versions, and appends nothing (all-or-nothing per call)." Stream versions are
`1..N`, so a stream's current version is its length. -/

/-- An event record: type tag, payload and the store-assigned version. -/
structure EventRecord where
  event_type : String
  data : String
  version : Nat
  deriving Repr, DecidableEq

/-- The error raised on an optimistic-concurrency conflict, carrying the
expected and the actual stream version. -/
structure EventStoreConcurrencyError where
  expected_version : Nat
  actual_version : Nat
  deriving Repr, DecidableEq

/-- A stream's current version: the number of events appended so far. -/
def streamVersion (stream : List EventRecord) : Nat := stream.length

/-- Modelled from the spec: the event store's `append`. -/
def event_store_append (stream : List EventRecord) (event_type data : String)
    (expectedVersion : Nat) :
    Except EventStoreConcurrencyError (List EventRecord) :=
  if streamVersion stream = expectedVersion then
    .ok (stream ++ [{ event_type := event_type, data := data,
                      version := expectedVersion + 1 }])
  else
    .error { expected_version := expectedVersion,
             actual_version := streamVersion stream }

/-! ## Processing loops (C8)

`_cleanup_pending_requests_loop` (user_session_actor.py lines 587-596):

  while self.is_running:
    try:
      await asyncio.sleep(10)
      await self._cleanup_expired_requests()
    except asyncio.CancelledError:
      break
    except Exception as e:
      self.logger.error(...)

Each iteration is abstracted by the value of `is_running` observed at the
loop head together with the iteration's outcome (normal completion, an
arbitrary exception, or task cancellation). -/

/-- Outcome of one loop iteration's body. -/
inductive IterOutcome where
  | ok : IterOutcome
  | exc : String → IterOutcome
  | cancelled : IterOutcome
  deriving Repr, DecidableEq

/-- Why a loop terminated. -/
inductive LoopExit where
  | notRunning : LoopExit
  | cancelledExc : LoopExit
  deriving Repr, DecidableEq

/-- The cleanup loop over a finite trace of `(is_running, outcome)`
observations: it stops with `notRunning` when the flag is false at the loop
head, breaks on `CancelledError`, and otherwise (normal completion or any
other exception, which is only logged) continues with the next iteration.
`none` means the loop is still live after consuming the whole trace. -/
def cleanup_loop_run : List (Bool × IterOutcome) → Option LoopExit
  | [] => none
  | (running, out) :: rest =>
    if !running then some .notRunning
    else
      match out with
      | .cancelled => some .cancelledExc
      | _ => cleanup_loop_run rest

/-- Modelled from the spec: the base actor message loop (`base_actor.py` is
not under `src/`). Spec §7 propagation policy: "no error from processing one
message may terminate an actor's loop; the loop always proceeds to the next
mailbox entry. Only explicit system shutdown stops a loop." Each observation
is the running flag at the loop head and the handling outcome of one mailbox
entry. -/
def message_loop_run : List (Bool × IterOutcome) → Option LoopExit
  | [] => none
  | (running, out) :: rest =>
    if !running then some .notRunning
    else
      match out with
      | .cancelled => some .cancelledExc
      | _ => message_loop_run rest

/-- The invariant claim C9 is about: the session's mode is from the closed
list and its confidence lies within the configured bounds. -/
def SessionValid (s : UserSession) : Prop :=
  s.current_mode ∈ valid_modes
  ∧ PYDANTIC_CONFIDENCE_MIN ≤ s.mode_confidence
  ∧ s.mode_confidence ≤ PYDANTIC_CONFIDENCE_MAX

instance (s : UserSession) : Decidable (SessionValid s) := by
  unfold SessionValid; infer_instance

/-- Concrete pending request used by witnesses: created at time 0, so expired
at time 100 (age 100 > 30). -/
def wit_expired_request : PendingRequest :=
  { user_id := "u1", chat_id := 1, text := "hello", include_prompt := true,
    message_count := 1,
    session_data := { username := some "alice", created_at := 0 },
    mode := "talk", mode_confidence := 1, timestamp := 0 }

/-- Concrete pending request used by witnesses: created at time 90, so still
fresh at time 100 (age 10 ≤ 30). -/
def wit_fresh_request : PendingRequest :=
  { user_id := "u2", chat_id := 2, text := "again", include_prompt := false,
    message_count := 2,
    session_data := { username := none, created_at := 0 },
    mode := "expert", mode_confidence := 0, timestamp := 90 }

/-- Concrete two-entry pending table used by witnesses. -/
def wit_table : PendingTable :=
  [("req-a", wit_expired_request), ("req-b", wit_fresh_request)]

/-- Concrete user session used by witnesses (all defaulted fields). -/
def wit_session : UserSession := { user_id := "u1" }

/-- Concrete user-message payload used by witnesses. -/
def wit_payload : UserMessagePayload :=
  { user_id := "u1", username := some "alice", text := "hello", chat_id := 1 }

/-! ## Helper lemmas: folding a bounded append-and-trim step -/

/-- Folding any step that appends one element and keeps the last `k` elements
computes the last `k` elements of the whole input, in order. -/
theorem foldl_trim_drop {α : Type} (f : List α → α → List α) (k : Nat)
    (hf : ∀ (h : List α) (m : α), h.length ≤ k →
      f h m = (h ++ [m]).drop ((h ++ [m]).length - k)) :
    ∀ (ms h : List α), h.length ≤ k →
      ms.foldl f h = (h ++ ms).drop ((h ++ ms).length - k) := by
  intro ms
  induction ms with
  | nil =>
    intro h hh
    simp [Nat.sub_eq_zero_of_le hh]
  | cons m rest ih =>
    intro h hh
    rw [List.foldl_cons, hf h m hh]
    have hdle : (h ++ [m]).length - k ≤ (h ++ [m]).length := Nat.sub_le _ _
    have hlen : ((h ++ [m]).drop ((h ++ [m]).length - k)).length ≤ k := by
      simp only [List.length_drop]
      omega
    rw [ih _ hlen]
    rw [(List.drop_append_of_le_length hdle).symm]
    rw [List.drop_drop]
    have harr : (h ++ [m]) ++ rest = h ++ m :: rest := by simp
    rw [harr]
    have hidx : ((h ++ [m]).length - k)
          + (((h ++ m :: rest).drop ((h ++ [m]).length - k)).length - k)
        = (h ++ m :: rest).length - k := by
      simp only [List.length_drop, List.length_append, List.length_cons,
        List.length_nil]
      omega
    rw [hidx]

/-- `store_interaction` always keeps the last `STM_BUFFER_SIZE` elements of
the extended buffer. -/
theorem store_interaction_drop (h : List StoredMessage) (m : StoredMessage) :
    store_interaction h m
      = (h ++ [m]).drop ((h ++ [m]).length - STM_BUFFER_SIZE) := by
  simp only [store_interaction]
  split
  · rfl
  · next hc =>
    have hz : h.length + 1 - STM_BUFFER_SIZE = 0 := by
      simp only [List.length_append, List.length_cons, List.length_nil] at hc
      omega
    simp [hz]

/-- On histories within the bound, `updateModeHistory` keeps the last
`MODE_HISTORY_SIZE` elements of the extended history. -/
theorem updateModeHistory_drop (h : List String) (m : String)
    (hh : h.length ≤ MODE_HISTORY_SIZE) :
    updateModeHistory h m
      = (h ++ [m]).drop ((h ++ [m]).length - MODE_HISTORY_SIZE) := by
  simp only [updateModeHistory]
  split
  · next hlt =>
    have h1 : (h ++ [m]).length - MODE_HISTORY_SIZE = 1 := by
      simp only [List.length_append, List.length_cons, List.length_nil] at hlt ⊢
      unfold MODE_HISTORY_SIZE at hh hlt ⊢
      omega
    rw [h1, List.drop_one]
  · next hc =>
    have hz : h.length + 1 - MODE_HISTORY_SIZE = 0 := by
      simp only [List.length_append, List.length_cons, List.length_nil] at hc
      omega
    simp [hz]

/-! ## Claim theorems -/

/-- **C4** (functional correctness): for every key, after storing `N`
records into the short-term-memory buffer with `N` greater than the capacity
(`STM_BUFFER_SIZE = 50`), reading the buffer yields exactly `capacity`
records, namely the last `capacity` records in arrival order, the oldest
`N - capacity` having been evicted; in particular storing records `0..59`
leaves exactly records `10` through `59`. -/
theorem c4_buffer_keeps_last_capacity (msgs : List StoredMessage)
    (hlen : STM_BUFFER_SIZE < msgs.length) :
    stored_buffer msgs = msgs.drop (msgs.length - STM_BUFFER_SIZE)
    ∧ (stored_buffer msgs).length = STM_BUFFER_SIZE
    ∧ stored_buffer ((List.range 60).map numbered_message)
        = (List.range' 10 50).map numbered_message := by
  have hgen : ∀ ms : List StoredMessage,
      stored_buffer ms = ms.drop (ms.length - STM_BUFFER_SIZE) := by
    intro ms
    have := foldl_trim_drop store_interaction STM_BUFFER_SIZE
      (fun h m _ => store_interaction_drop h m) ms [] (by simp)
    simpa [stored_buffer] using this
  refine ⟨hgen msgs, ?_, ?_⟩
  · rw [hgen msgs, List.length_drop]
    omega
  · rw [hgen ((List.range 60).map numbered_message)]
    have h60 : ((List.range 60).map numbered_message).length = 60 := by simp
    rw [h60]
    show ((List.range 60).map numbered_message).drop 10
      = (List.range' 10 50).map numbered_message
    rw [← List.map_drop]
    have : (List.range 60).drop 10 = List.range' 10 50 := by decide
    rw [this]

/-- Witness for C4 at the concrete input of the test: 60 records stored with
capacity 50 leave records 10 through 59. -/
theorem c4_buffer_keeps_last_capacity_witness :
    STM_BUFFER_SIZE < ((List.range 60).map numbered_message).length
    ∧ stored_buffer ((List.range 60).map numbered_message)
        = (List.range' 10 50).map numbered_message :=
  ⟨by decide,
   (c4_buffer_keeps_last_capacity ((List.range 60).map numbered_message)
     (by decide)).2.2⟩

/-- **C10** (invariants): after the UserSessionActor processes any sequence
of user messages for one session, the session's `mode_history` has length at
most `MODE_HISTORY_SIZE` (5) and contains exactly the most recently detected
modes in detection order (the last up-to-5 detected modes); each processed
user message performs exactly one `updateModeHistory` step, which appends the
newly detected mode and removes the oldest entry when the bound is
exceeded. -/
theorem c10_mode_history_bounded :
    (∀ ms : List String,
        (ms.foldl updateModeHistory []).length ≤ MODE_HISTORY_SIZE
        ∧ ms.foldl updateModeHistory []
            = ms.drop (ms.length - MODE_HISTORY_SIZE))
    ∧ ∀ p s det include_prompt rid now table,
        (handle_user_message p s det include_prompt rid now table).session.mode_history
          = updateModeHistory s.mode_history det.1 := by
  constructor
  · intro ms
    have hgen := foldl_trim_drop updateModeHistory MODE_HISTORY_SIZE
      updateModeHistory_drop ms [] (by simp)
    simp only [List.nil_append, List.length_nil] at hgen
    refine ⟨?_, by simpa using hgen⟩
    rw [hgen, List.length_drop]
    omega
  · intro p s det include_prompt rid now table
    simp only [handle_user_message]
    split <;> rfl

/-! ## Helper lemmas: association lists with distinct keys -/

/-- Erasing keys none of which is the head's key commutes with the head. -/
theorem foldl_erase_skip {β : Type} (sub : List (String × β))
    (a : String × β) :
    ∀ t : List (String × β), (∀ p ∈ sub, p.1 ≠ a.1) →
      sub.foldl (fun tbl q => tbl.eraseP (fun r => r.1 == q.1)) (a :: t)
        = a :: sub.foldl (fun tbl q => tbl.eraseP (fun r => r.1 == q.1)) t := by
  induction sub with
  | nil => intro t _; rfl
  | cons q rest ih =>
    intro t hne
    have hq : q.1 ≠ a.1 := hne q (by simp)
    have hb : (a.1 == q.1) = false := by
      simp [Ne.symm hq]
    rw [List.foldl_cons, List.foldl_cons, List.eraseP_cons, hb]
    exact ih _ fun p hp => hne p (List.mem_cons_of_mem q hp)

/-- Popping, one by one, every entry of a distinct-key table that satisfies a
predicate leaves exactly the entries that do not satisfy it. This is the
semantics of the cleanup sweep's pop loop over the collected expired ids. -/
theorem foldl_erase_filter {β : Type} :
    ∀ (l : List (String × β)) (q : (String × β) → Bool),
      (l.map Prod.fst).Nodup →
      (l.filter q).foldl (fun tbl p => tbl.eraseP (fun r => r.1 == p.1)) l
        = l.filter (fun p => !(q p)) := by
  intro l
  induction l with
  | nil => intro q _; rfl
  | cons a t ih =>
    intro q hnd
    rw [List.map_cons, List.nodup_cons] at hnd
    obtain ⟨ha, hnd'⟩ := hnd
    by_cases hqa : q a
    · rw [List.filter_cons_of_pos hqa, List.foldl_cons]
      have hhead : (a :: t).eraseP (fun r => r.1 == a.1) = t := by
        rw [List.eraseP_cons]
        simp
      rw [hhead, ih q hnd', List.filter_cons_of_neg (by simp [hqa])]
    · rw [List.filter_cons_of_neg hqa]
      have hsub : ∀ p ∈ t.filter q, p.1 ≠ a.1 := by
        intro p hp he
        exact ha (he ▸ List.mem_map_of_mem Prod.fst (List.mem_of_mem_filter hp))
      rw [foldl_erase_skip _ a t hsub, ih q hnd',
        List.filter_cons_of_pos (by simp [hqa])]

/-- In a distinct-key table, looking up the key of a member finds exactly
that member. -/
theorem find?_key_of_mem {β : Type} :
    ∀ (l : List (String × β)) (rid : String) (pr : β),
      (l.map Prod.fst).Nodup → (rid, pr) ∈ l →
      l.find? (fun r => r.1 == rid) = some (rid, pr) := by
  intro l
  induction l with
  | nil => intro rid pr _ hmem; cases hmem
  | cons a t ih =>
    intro rid pr hnd hmem
    rw [List.map_cons, List.nodup_cons] at hnd
    obtain ⟨ha, hnd'⟩ := hnd
    rcases List.mem_cons.mp hmem with heq | hmem'
    · subst heq
      rw [List.find?_cons_of_pos _ (by simp)]
    · have hne : a.1 ≠ rid := by
        intro he
        exact ha (he ▸ List.mem_map_of_mem Prod.fst hmem')
      rw [List.find?_cons_of_neg _ (by simp [hne])]
      exact ih rid pr hnd' hmem'

/-- After erasing a key from a distinct-key table, no entry carries that
key. -/
theorem eraseP_key_not_mem {β : Type} :
    ∀ (l : List (String × β)) (rid : String),
      (l.map Prod.fst).Nodup →
      ∀ p ∈ l.eraseP (fun r => r.1 == rid), p.1 ≠ rid := by
  intro l
  induction l with
  | nil => intro rid _ p hp; cases hp
  | cons a t ih =>
    intro rid hnd p hp
    rw [List.map_cons, List.nodup_cons] at hnd
    obtain ⟨ha, hnd'⟩ := hnd
    by_cases hra : a.1 = rid
    · simp only [List.eraseP_cons, hra, beq_self_eq_true, cond_true] at hp
      intro he
      exact ha (hra ▸ he ▸ List.mem_map_of_mem Prod.fst hp)
    · have hb : (a.1 == rid) = false := by simp [hra]
      simp only [List.eraseP_cons, hb, cond_false] at hp
      rcases List.mem_cons.mp hp with heq | hp'
      · exact heq ▸ hra
      · exact ih rid hnd' p hp'

/-- Erasing a key that is no entry's key leaves the table unchanged. -/
theorem eraseP_key_of_not_mem {β : Type} (l : List (String × β)) (rid : String)
    (h : ∀ p ∈ l, p.1 ≠ rid) : l.eraseP (fun r => r.1 == rid) = l := by
  apply List.eraseP_of_forall_not
  intro p hp
  simp [h p hp]

/-- **C1** (functional correctness): the periodic cleanup sweep removes every
pending entry older than `STM_CONTEXT_REQUEST_TIMEOUT` from the table exactly
once, emitting exactly one `GENERATE_RESPONSE` per removed entry, built from
the entry's saved context with an empty `historical_context` (the degraded
fallback); entries not older than the timeout are left unchanged. The
resulting table is exactly the non-expired sublist, and the emitted messages
are exactly the expired entries' fallbacks, one each, in table order. -/
theorem c1_cleanup_removes_expired_once (now : ℚ) (table : PendingTable)
    (hnd : keysNodup table) :
    (cleanup_expired_requests now table).1
        = table.filter (fun q => !(isExpiredRequest now q.2))
    ∧ (cleanup_expired_requests now table).2
        = (table.filter (fun q => isExpiredRequest now q.2)).map
            (fun q => timeout_fallback_msg q.2)
    ∧ (∀ pr : PendingRequest,
        (timeout_fallback_msg pr).historical_context = ([] : List CtxMessage)
        ∧ (timeout_fallback_msg pr).user_id = pr.user_id
        ∧ (timeout_fallback_msg pr).chat_id = pr.chat_id
        ∧ (timeout_fallback_msg pr).text = pr.text
        ∧ (timeout_fallback_msg pr).mode = pr.mode)
    ∧ (∀ k pr, (k, pr) ∈ table → isExpiredRequest now pr = true →
        (k, pr) ∉ (cleanup_expired_requests now table).1
        ∧ timeout_fallback_msg pr ∈ (cleanup_expired_requests now table).2)
    ∧ (∀ k pr, (k, pr) ∈ table → isExpiredRequest now pr = false →
        (k, pr) ∈ (cleanup_expired_requests now table).1) := by
  have htbl : (cleanup_expired_requests now table).1
      = table.filter (fun q => !(isExpiredRequest now q.2)) := by
    simp only [cleanup_expired_requests]
    exact foldl_erase_filter table (fun q => isExpiredRequest now q.2) hnd
  have hmsgs : (cleanup_expired_requests now table).2
      = (table.filter (fun q => isExpiredRequest now q.2)).map
          (fun q => timeout_fallback_msg q.2) := rfl
  refine ⟨htbl, hmsgs, fun pr => ⟨rfl, rfl, rfl, rfl, rfl⟩, ?_, ?_⟩
  · intro k pr hmem hexp
    constructor
    · rw [htbl]
      intro hin
      have := (List.mem_filter.mp hin).2
      simp [hexp] at this
    · rw [hmsgs]
      exact List.mem_map_of_mem _ (List.mem_filter.mpr ⟨hmem, hexp⟩)
  · intro k pr hmem hfresh
    rw [htbl]
    exact List.mem_filter.mpr ⟨hmem, by simp [hfresh]⟩

/-- Witness for C1: at time 100, the two-entry table with one expired entry
(age 100) and one fresh entry (age 10); the hypothesis (distinct keys) is
discharged by computation and the conclusion instantiated directly. -/
theorem c1_cleanup_removes_expired_once_witness :
    keysNodup wit_table
    ∧ (cleanup_expired_requests 100 wit_table).1
        = wit_table.filter (fun q => !(isExpiredRequest 100 q.2))
    ∧ (cleanup_expired_requests 100 wit_table).2
        = (wit_table.filter (fun q => isExpiredRequest 100 q.2)).map
            (fun q => timeout_fallback_msg q.2) :=
  ⟨by decide,
   (c1_cleanup_removes_expired_once 100 wit_table (by decide)).1,
   (c1_cleanup_removes_expired_once 100 wit_table (by decide)).2.1⟩

/-- **C2** (error handling): handling a `CONTEXT_RESPONSE` resolves its
correlation id by consuming the matching pending entry: when the
`request_id` is a key of the table, the entry is removed (no entry with that
key remains) and exactly one `GENERATE_RESPONSE` is produced carrying the
saved context with the reply's messages as `historical_context`; when the
`request_id` is missing, empty, or unknown, the handler is a no-op on the
table, emits nothing, and returns nothing. -/
theorem c2_context_response_consumes_pending (table : PendingTable)
    (messages : List CtxMessage) :
    (∀ rid pr, keysNodup table → (rid, pr) ∈ table → rid ≠ "" →
        handle_context_response table (some rid) messages
          = (table.eraseP (fun q => q.1 == rid),
             some (context_response_msg pr messages))
        ∧ (context_response_msg pr messages).historical_context = messages
        ∧ (context_response_msg pr messages).user_id = pr.user_id
        ∧ (context_response_msg pr messages).chat_id = pr.chat_id
        ∧ (context_response_msg pr messages).text = pr.text
        ∧ (context_response_msg pr messages).mode = pr.mode
        ∧ ∀ p ∈ (handle_context_response table (some rid) messages).1,
            p.1 ≠ rid)
    ∧ handle_context_response table none messages = (table, none)
    ∧ handle_context_response table (some "") messages = (table, none)
    ∧ (∀ rid, rid ≠ "" → (∀ p ∈ table, p.1 ≠ rid) →
        handle_context_response table (some rid) messages = (table, none)) := by
  refine ⟨?_, rfl, by simp [handle_context_response], ?_⟩
  · intro rid pr hnd hmem hne
    have hfind := find?_key_of_mem table rid pr hnd hmem
    have hres : handle_context_response table (some rid) messages
        = (table.eraseP (fun q => q.1 == rid),
           some (context_response_msg pr messages)) := by
      simp only [handle_context_response, if_neg hne, hfind]
    refine ⟨hres, rfl, rfl, rfl, rfl, rfl, ?_⟩
    intro p hp
    rw [hres] at hp
    exact eraseP_key_not_mem table rid hnd p hp
  · intro rid hne hnotin
    have hfind : table.find? (fun q => q.1 == rid) = none :=
      List.find?_eq_none.mpr fun p hp => by simp [hnotin p hp]
    simp only [handle_context_response, if_neg hne, hfind]

/-- Witness for C2: resolving the known id `req-a` in the concrete table
consumes exactly that entry and emits one `GENERATE_RESPONSE` carrying the
reply's messages. -/
theorem c2_context_response_consumes_pending_witness :
    keysNodup wit_table
    ∧ ("req-a", wit_expired_request) ∈ wit_table
    ∧ "req-a" ≠ ""
    ∧ handle_context_response wit_table (some "req-a")
          [{ raw := "m1" }]
        = (wit_table.eraseP (fun q => q.1 == "req-a"),
           some (context_response_msg wit_expired_request [{ raw := "m1" }])) :=
  ⟨by decide, by decide, by decide,
   (((c2_context_response_consumes_pending wit_table [{ raw := "m1" }]).1)
     "req-a" wit_expired_request (by decide) (by decide) (by decide)).1⟩

/-- **C3** (functional correctness): processing a `USER_MESSAGE` does not
block on the context reply: the handler returns no direct reply envelope,
records exactly one new pending entry keyed by the freshly generated
correlation id — containing the original payload fields and a creation
timestamp — and dispatches a `GET_CONTEXT` message carrying that correlation
id with `reply_to` set to the actor itself; the reply later arrives as an
ordinary `CONTEXT_RESPONSE` (handled by `handle_context_response`, claim
C2). -/
theorem c3_user_message_registers_pending (p : UserMessagePayload)
    (s : UserSession) (det : String × ℚ) (include_prompt : Bool)
    (rid : String) (now : ℚ) (table : PendingTable)
    (hnd : keysNodup table) (hfresh : rid ∉ table.map Prod.fst) :
    (handle_user_message p s det include_prompt rid now table).reply = none
    ∧ (handle_user_message p s det include_prompt rid now table).pending
        = table ++ [(rid,
            { user_id := p.user_id, chat_id := p.chat_id, text := p.text,
              include_prompt := include_prompt,
              message_count :=
                (handle_user_message p s det include_prompt rid now
                  table).session.message_count,
              session_data :=
                { username := s.username, created_at := s.created_at },
              mode :=
                (handle_user_message p s det include_prompt rid now
                  table).session.current_mode,
              mode_confidence := det.2, timestamp := now })]
    ∧ (handle_user_message p s det include_prompt rid now
        table).session.message_count = s.message_count + 1
    ∧ (handle_user_message p s det include_prompt rid now
        table).session.current_mode = det.1
    ∧ (handle_user_message p s det include_prompt rid now table).pending.length
        = table.length + 1
    ∧ keysNodup (handle_user_message p s det include_prompt rid now
        table).pending
    ∧ (handle_user_message p s det include_prompt rid now
        table).get_context_msg.request_id = rid
    ∧ (handle_user_message p s det include_prompt rid now
        table).get_context_msg.reply_to = "user_session"
    ∧ (handle_user_message p s det include_prompt rid now
        table).get_context_msg.user_id = p.user_id
    ∧ (handle_user_message p s det include_prompt rid now
        table).get_context_msg.limit = STM_CONTEXT_SIZE_FOR_GENERATION
    ∧ (handle_user_message p s det include_prompt rid now
        table).get_context_msg.format_type = "structured" := by
  have hmode : (handle_user_message p s det include_prompt rid now
      table).session.current_mode = det.1 := by
    simp only [handle_user_message]
    split
    · rfl
    · next h =>
      have : det.1 = s.current_mode := by
        by_contra hc
        exact h hc
      exact this.symm
  refine ⟨?_, ?_, ?_, hmode, ?_, ?_, ?_, ?_, ?_, ?_, ?_⟩
  · simp only [handle_user_message]
  · simp only [handle_user_message]
    split <;> rfl
  · simp only [handle_user_message]
    split <;> rfl
  · simp only [handle_user_message]
    split <;> simp
  · have hmap : ((handle_user_message p s det include_prompt rid now
        table).pending).map Prod.fst = table.map Prod.fst ++ [rid] := by
      simp only [handle_user_message]
      split <;> simp
    unfold keysNodup
    rw [hmap, List.nodup_append]
    refine ⟨hnd, List.nodup_singleton rid, ?_⟩
    intro a ha hb
    rw [List.mem_singleton] at hb
    exact hfresh (hb ▸ ha)
  · simp only [handle_user_message]
  · simp only [handle_user_message]
  · simp only [handle_user_message]
  · simp only [handle_user_message]
  · simp only [handle_user_message]

/-- Witness for C3 at concrete inputs: a fresh correlation id `req-c` on the
two-entry table; the handler returns no reply and the `GET_CONTEXT` message
carries the id with `reply_to` set to the session actor. -/
theorem c3_user_message_registers_pending_witness :
    keysNodup wit_table
    ∧ "req-c" ∉ wit_table.map Prod.fst
    ∧ (handle_user_message wit_payload wit_session ("talk", 1) true "req-c" 5
        wit_table).reply = none
    ∧ (handle_user_message wit_payload wit_session ("talk", 1) true "req-c" 5
        wit_table).get_context_msg.request_id = "req-c"
    ∧ (handle_user_message wit_payload wit_session ("talk", 1) true "req-c" 5
        wit_table).get_context_msg.reply_to = "user_session" :=
  ⟨by decide, by decide,
   (c3_user_message_registers_pending wit_payload wit_session ("talk", 1) true
     "req-c" 5 wit_table (by decide) (by decide)).1,
   (c3_user_message_registers_pending wit_payload wit_session ("talk", 1) true
     "req-c" 5 wit_table (by decide) (by decide)).2.2.2.2.2.2.1,
   (c3_user_message_registers_pending wit_payload wit_session ("talk", 1) true
     "req-c" 5 wit_table (by decide) (by decide)).2.2.2.2.2.2.2.1⟩

/-- **C5** (error handling): in degraded mode, handling `STORE_MEMORY`
raises no error and persists nothing (the state — and hence the actor — is
unchanged and keeps running), and handling `GET_CONTEXT` returns a
`CONTEXT_RESPONSE` whose payload has `degraded_mode = true` and an empty
context list, rather than failing. -/
theorem c5_degraded_mode_is_safe (st : MemoryState) (user : String)
    (m : StoredMessage) (hdeg : st.degraded_mode = true) :
    memory_handle_store st user m = .ok st
    ∧ memory_handle_get_context st user
        = { degraded_mode := true, context := [] } := by
  constructor
  · simp [memory_handle_store, hdeg]
  · simp [memory_handle_get_context, hdeg]

/-- Witness for C5: a concrete degraded memory state. -/
theorem c5_degraded_mode_is_safe_witness :
    ({ degraded_mode := true, buffers := [] } : MemoryState).degraded_mode
        = true
    ∧ memory_handle_store { degraded_mode := true, buffers := [] } "u1"
          { message_type := "user", content := "x" }
        = .ok { degraded_mode := true, buffers := [] }
    ∧ memory_handle_get_context { degraded_mode := true, buffers := [] } "u1"
        = { degraded_mode := true, context := [] } :=
  ⟨rfl,
   (c5_degraded_mode_is_safe { degraded_mode := true, buffers := [] } "u1"
     { message_type := "user", content := "x" } rfl).1,
   (c5_degraded_mode_is_safe { degraded_mode := true, buffers := [] } "u1"
     { message_type := "user", content := "x" } rfl).2⟩

/-- **C6 counterexample**: the claim states that a message whose type is
outside the closed catalog is rejected at send time and is neither enqueued
onto nor processed from the target mailbox. At the concrete input of
`test_memory_actor_message_handling` — a message with type `unknown_type`,
which is not in the catalog — dispatch does enqueue the message and the
MemoryActor does process it from its mailbox, counting it as unknown
(`unknown_message_count` goes from 0 to 1), exactly as the repository's test
asserts. -/
theorem c6_unknown_type_is_dispatched_counterexample :
    "unknown_type" ∉ MESSAGE_CATALOG
    ∧ send_message [] { sender_id := "test", message_type := "unknown_type" }
        = [{ sender_id := "test", message_type := "unknown_type" }]
    ∧ (memory_process_mailbox {}
        (send_message []
          { sender_id := "test", message_type := "unknown_type" })).unknown_message_count
        = 1 :=
  ⟨by decide, rfl, rfl⟩

/-- **C6 amended**: dispatch does not validate the message type against the
catalog: any message — its type in the catalog or not — is enqueued onto the
target actor's mailbox; a message whose type is unknown to the MemoryActor is
then processed by being counted in `unknown_message_count` (and otherwise
ignored), not rejected at send time. -/
theorem c6_unknown_type_is_counted (mb : List EnvelopeMsg) (m : EnvelopeMsg)
    (met : MemMetrics)
    (hunk : m.message_type
      ∉ ["store_memory", "get_context", "clear_user_memory"]) :
    send_message mb m = mb ++ [m]
    ∧ memory_count_message met m.message_type
        = { met with
            unknown_message_count := met.unknown_message_count + 1 } := by
  refine ⟨rfl, ?_⟩
  simp only [List.mem_cons, List.mem_singleton, not_or] at hunk
  obtain ⟨h1, h2, h3⟩ := hunk
  simp [memory_count_message, h1, h2, h3]

/-- Witness for the amended C6 at the test's concrete input. -/
theorem c6_unknown_type_is_counted_witness :
    (({ sender_id := "test", message_type := "unknown_type" } :
        EnvelopeMsg).message_type
      ∉ ["store_memory", "get_context", "clear_user_memory"])
    ∧ send_message [{ sender_id := "s", message_type := "store_memory" }]
          { sender_id := "test", message_type := "unknown_type" }
        = [{ sender_id := "s", message_type := "store_memory" }]
          ++ [{ sender_id := "test", message_type := "unknown_type" }]
    ∧ memory_count_message {}
          ({ sender_id := "test", message_type := "unknown_type" } :
            EnvelopeMsg).message_type
        = { ({} : MemMetrics) with
            unknown_message_count :=
              ({} : MemMetrics).unknown_message_count + 1 } :=
  ⟨by decide,
   (c6_unknown_type_is_counted
     [{ sender_id := "s", message_type := "store_memory" }]
     { sender_id := "test", message_type := "unknown_type" } {}
     (by decide)).1,
   (c6_unknown_type_is_counted
     [{ sender_id := "s", message_type := "store_memory" }]
     { sender_id := "test", message_type := "unknown_type" } {}
     (by decide)).2⟩

/-- **C7** (error handling): for every stream, `append` appends the event if
and only if the stream's current version equals `expectedVersion`; on
mismatch it fails with `EventStoreConcurrencyError` carrying both the
expected and the actual version, and the failing call appends nothing (the
result is the error alone; the caller's stream value is untouched). On
success the new record carries version `expectedVersion + 1`, keeping
versions gapless. -/
theorem c7_append_optimistic_concurrency (stream : List EventRecord)
    (event_type data : String) (expectedVersion : Nat) :
    (streamVersion stream = expectedVersion →
        event_store_append stream event_type data expectedVersion
          = .ok (stream ++ [{ event_type := event_type, data := data,
                              version := expectedVersion + 1 }]))
    ∧ (streamVersion stream ≠ expectedVersion →
        event_store_append stream event_type data expectedVersion
          = .error { expected_version := expectedVersion,
                     actual_version := streamVersion stream })
    ∧ (∀ s', event_store_append stream event_type data expectedVersion
          = .ok s' →
        streamVersion stream = expectedVersion
        ∧ s' = stream ++ [{ event_type := event_type, data := data,
                            version := expectedVersion + 1 }]
        ∧ streamVersion s' = expectedVersion + 1) := by
  refine ⟨?_, ?_, ?_⟩
  · intro h
    simp [event_store_append, h]
  · intro h
    simp [event_store_append, h]
  · intro s' h
    by_cases hv : streamVersion stream = expectedVersion
    · simp only [event_store_append, if_pos hv, Except.ok.injEq] at h
      refine ⟨hv, h.symm, ?_⟩
      rw [← h]
      simp only [streamVersion, List.length_append, List.length_cons,
        List.length_nil]
      unfold streamVersion at hv
      omega
    · simp [event_store_append, hv] at h

/-- Witness for C7: on the empty stream (version 0), an append expecting
version 0 succeeds with the record at version 1, and an append expecting
version 4 fails carrying expected 4 and actual 0. -/
theorem c7_append_optimistic_concurrency_witness :
    streamVersion [] = 0
    ∧ event_store_append [] "E" "d" 0
        = .ok [{ event_type := "E", data := "d", version := 1 }]
    ∧ streamVersion [] ≠ 4
    ∧ event_store_append [] "E" "d" 4
        = .error { expected_version := 4, actual_version := streamVersion [] } :=
  ⟨rfl,
   (c7_append_optimistic_concurrency [] "E" "d" 0).1 rfl,
   by decide,
   (c7_append_optimistic_concurrency [] "E" "d" 4).2.1 (by decide)⟩

/-- `validate_mode` succeeds exactly on catalog modes, returning the value. -/
theorem validate_mode_ok {v m : String} (h : validate_mode v = .ok m) :
    m = v ∧ v ∈ valid_modes := by
  unfold validate_mode at h
  split at h
  · next hv => cases h; exact ⟨rfl, hv⟩
  · cases h

/-- `validate_confidence` succeeds exactly on in-bounds values, returning
the value. -/
theorem validate_confidence_ok {v c : ℚ} (h : validate_confidence v = .ok c) :
    c = v ∧ PYDANTIC_CONFIDENCE_MIN ≤ v ∧ v ≤ PYDANTIC_CONFIDENCE_MAX := by
  unfold validate_confidence at h
  split at h
  · next hv => cases h; exact ⟨rfl, hv⟩
  · cases h

/-- **C8** (temporal): no error raised in a single sweep (or message)
iteration terminates the processing loop: over any trace in which the actor
stays running and no iteration is cancelled, both the UserSessionActor's
pending-request cleanup loop and the actor message loop consume the whole
trace without exiting; an exit can only be caused by the running flag being
false at some iteration or by a cancellation outcome, and an ordinary
exception iteration leaves the loop exactly where the next iteration would
start. -/
theorem c8_loop_exits_only_on_shutdown :
    (∀ trace : List (Bool × IterOutcome),
        (∀ q ∈ trace, q.1 = true ∧ q.2 ≠ IterOutcome.cancelled) →
        cleanup_loop_run trace = none ∧ message_loop_run trace = none)
    ∧ (∀ trace, cleanup_loop_run trace = some LoopExit.notRunning →
        ∃ q ∈ trace, q.1 = false)
    ∧ (∀ trace, cleanup_loop_run trace = some LoopExit.cancelledExc →
        ∃ q ∈ trace, q.2 = IterOutcome.cancelled)
    ∧ (∀ e rest,
        cleanup_loop_run ((true, IterOutcome.exc e) :: rest)
            = cleanup_loop_run rest
        ∧ message_loop_run ((true, IterOutcome.exc e) :: rest)
            = message_loop_run rest) := by
  refine ⟨?_, ?_, ?_, ?_⟩
  · intro trace
    induction trace with
    | nil => intro _; exact ⟨rfl, rfl⟩
    | cons q rest ih =>
      intro h
      obtain ⟨hb, ho⟩ := h q (List.mem_cons_self q rest)
      obtain ⟨ih1, ih2⟩ := ih fun p hp => h p (List.mem_cons_of_mem q hp)
      rcases q with ⟨b, o⟩
      simp only at hb ho
      subst hb
      cases o with
      | ok => exact ⟨by simpa [cleanup_loop_run] using ih1,
          by simpa [message_loop_run] using ih2⟩
      | exc e => exact ⟨by simpa [cleanup_loop_run] using ih1,
          by simpa [message_loop_run] using ih2⟩
      | cancelled => exact absurd rfl ho
  · intro trace
    induction trace with
    | nil => intro h; simp [cleanup_loop_run] at h
    | cons q rest ih =>
      intro h
      rcases q with ⟨b, o⟩
      by_cases hb : b
      · subst hb
        cases o with
        | ok =>
          obtain ⟨p, hp, hp1⟩ := ih (by simpa [cleanup_loop_run] using h)
          exact ⟨p, List.mem_cons_of_mem _ hp, hp1⟩
        | exc e =>
          obtain ⟨p, hp, hp1⟩ := ih (by simpa [cleanup_loop_run] using h)
          exact ⟨p, List.mem_cons_of_mem _ hp, hp1⟩
        | cancelled => simp [cleanup_loop_run] at h
      · have hb' : b = false := by simpa using hb
        exact ⟨(b, o), List.mem_cons_self _ _, hb'⟩
  · intro trace
    induction trace with
    | nil => intro h; simp [cleanup_loop_run] at h
    | cons q rest ih =>
      intro h
      rcases q with ⟨b, o⟩
      by_cases hb : b
      · subst hb
        cases o with
        | ok =>
          obtain ⟨p, hp, hp2⟩ := ih (by simpa [cleanup_loop_run] using h)
          exact ⟨p, List.mem_cons_of_mem _ hp, hp2⟩
        | exc e =>
          obtain ⟨p, hp, hp2⟩ := ih (by simpa [cleanup_loop_run] using h)
          exact ⟨p, List.mem_cons_of_mem _ hp, hp2⟩
        | cancelled => exact ⟨(true, .cancelled), List.mem_cons_self _ _, rfl⟩
      · have hb' : b = false := by simpa using hb
        simp [cleanup_loop_run, hb'] at h
  · intro e rest
    exact ⟨rfl, rfl⟩

/-- Witness for C8: a trace of one normal iteration followed by one
iteration that raises an ordinary exception, with the actor running
throughout: both loops stay alive. -/
theorem c8_loop_exits_only_on_shutdown_witness :
    (∀ q ∈ ([(true, IterOutcome.ok), (true, IterOutcome.exc "boom")] :
        List (Bool × IterOutcome)), q.1 = true ∧ q.2 ≠ IterOutcome.cancelled)
    ∧ cleanup_loop_run [(true, IterOutcome.ok), (true, IterOutcome.exc "boom")]
        = none
    ∧ message_loop_run [(true, IterOutcome.ok), (true, IterOutcome.exc "boom")]
        = none :=
  ⟨by decide,
   (c8_loop_exits_only_on_shutdown.1
     [(true, IterOutcome.ok), (true, IterOutcome.exc "boom")] (by decide)).1,
   (c8_loop_exits_only_on_shutdown.1
     [(true, IterOutcome.ok), (true, IterOutcome.exc "boom")] (by decide)).2⟩

/-- **C9** (invariants): every `UserSession` value produced by construction
or by a field assignment (assignment validation is enabled) satisfies the
invariant: `current_mode` is one of `talk`, `expert`, `creative`, `base`,
and `mode_confidence` lies within
`[PYDANTIC_CONFIDENCE_MIN, PYDANTIC_CONFIDENCE_MAX] = [0, 1]`; any
construction or assignment violating either condition raises a validation
error instead of producing a session in an invalid state. -/
theorem c9_session_invariant_enforced :
    (∀ s s', mkUserSession s = .ok s' → SessionValid s')
    ∧ (∀ s v s', SessionValid s → s.set_current_mode v = .ok s' →
        SessionValid s')
    ∧ (∀ s v s', SessionValid s → s.set_mode_confidence v = .ok s' →
        SessionValid s')
    ∧ (∀ (s : UserSession) v, v ∉ valid_modes →
        ∃ e, s.set_current_mode v = .error e)
    ∧ (∀ (s : UserSession) v,
        ¬ (PYDANTIC_CONFIDENCE_MIN ≤ v ∧ v ≤ PYDANTIC_CONFIDENCE_MAX) →
        ∃ e, s.set_mode_confidence v = .error e)
    ∧ (∀ s, ¬ SessionValid s → ∃ e, mkUserSession s = .error e) := by
  refine ⟨?_, ?_, ?_, ?_, ?_, ?_⟩
  · intro s s' h
    unfold mkUserSession UserSession.validate at h
    cases hconf : validate_confidence s.mode_confidence with
    | error e => rw [hconf] at h; simp [Bind.bind, Except.bind] at h
    | ok c =>
      rw [hconf] at h
      cases hmode : validate_mode s.current_mode with
      | error e => rw [hmode] at h; simp [Bind.bind, Except.bind] at h
      | ok m =>
        rw [hmode] at h
        simp only [Bind.bind, Except.bind, pure, Except.pure,
          Except.ok.injEq] at h
        obtain ⟨hm, hvm⟩ := validate_mode_ok hmode
        obtain ⟨hc, hc1, hc2⟩ := validate_confidence_ok hconf
        subst h
        exact ⟨by simpa [hm] using hvm, by simpa [hc] using hc1,
          by simpa [hc] using hc2⟩
  · intro s v s' hvalid h
    unfold UserSession.set_current_mode at h
    cases hmode : validate_mode v with
    | error e => rw [hmode] at h; simp [Except.map] at h
    | ok m =>
      rw [hmode] at h
      simp only [Except.map, Except.ok.injEq] at h
      obtain ⟨hm, hvm⟩ := validate_mode_ok hmode
      subst h
      exact ⟨by simpa [hm] using hvm, hvalid.2.1, hvalid.2.2⟩
  · intro s v s' hvalid h
    unfold UserSession.set_mode_confidence at h
    cases hconf : validate_confidence v with
    | error e => rw [hconf] at h; simp [Except.map] at h
    | ok c =>
      rw [hconf] at h
      simp only [Except.map, Except.ok.injEq] at h
      obtain ⟨hc, hc1, hc2⟩ := validate_confidence_ok hconf
      subst h
      exact ⟨hvalid.1, by simpa [hc] using hc1, by simpa [hc] using hc2⟩
  · intro s v hv
    refine ⟨"Invalid mode: must be one of talk, expert, creative, base", ?_⟩
    unfold UserSession.set_current_mode validate_mode
    rw [if_neg hv]
    rfl
  · intro s v hv
    refine ⟨"Mode confidence must be between 0.0 and 1.0", ?_⟩
    unfold UserSession.set_mode_confidence validate_confidence
    rw [if_neg hv]
    rfl
  · intro s hs
    unfold SessionValid at hs
    by_cases hconf : PYDANTIC_CONFIDENCE_MIN ≤ s.mode_confidence
        ∧ s.mode_confidence ≤ PYDANTIC_CONFIDENCE_MAX
    · have hmode : s.current_mode ∉ valid_modes := by tauto
      refine ⟨"Invalid mode: must be one of talk, expert, creative, base", ?_⟩
      unfold mkUserSession UserSession.validate
      unfold validate_confidence
      rw [if_pos hconf]
      unfold validate_mode
      rw [if_neg hmode]
      rfl
    · refine ⟨"Mode confidence must be between 0.0 and 1.0", ?_⟩
      unfold mkUserSession UserSession.validate
      unfold validate_confidence
      rw [if_neg hconf]
      rfl

/-- Witness for C9: the default session is valid; assigning the valid mode
`expert` succeeds and preserves the invariant; assigning the out-of-catalog
mode `weird` and the out-of-bounds confidence `2` both raise validation
errors. -/
theorem c9_session_invariant_enforced_witness :
    SessionValid wit_session
    ∧ UserSession.set_current_mode wit_session "expert"
        = .ok { wit_session with current_mode := "expert" }
    ∧ SessionValid { wit_session with current_mode := "expert" }
    ∧ ("weird" ∉ valid_modes)
    ∧ (∃ e, UserSession.set_current_mode wit_session "weird" = .error e)
    ∧ ¬ (PYDANTIC_CONFIDENCE_MIN ≤ (2 : ℚ)
          ∧ (2 : ℚ) ≤ PYDANTIC_CONFIDENCE_MAX)
    ∧ (∃ e, UserSession.set_mode_confidence wit_session 2 = .error e) :=
  ⟨by decide, by rfl,
   c9_session_invariant_enforced.2.1 wit_session "expert"
     { wit_session with current_mode := "expert" } (by decide) (by rfl),
   by decide,
   c9_session_invariant_enforced.2.2.2.1 wit_session "weird" (by decide),
   by decide,
   c9_session_invariant_enforced.2.2.2.2.1 wit_session 2 (by decide)⟩

end Chimera
